import Mathlib

/-
  Verification of src/wf/__init__.py (famsa-exports-latch).

  The repository is a thin wrapper: it translates an enumerated guide-tree
  selection into the FAMSA binary's short option code, builds a fixed
  six-element command line, runs the binary as a blocking child process
  (never inspecting the exit status), and returns a LatchFile handle whose
  local path is the computed output filename and whose remote path is a
  fixed prefix plus that filename.

  Embedding notes:
  * `Path(input).resolve()` (line 30) depends on the filesystem; the task is
    modelled over the already-resolved input path as a string parameter.
  * `subprocess.run(gt_export_cmd)` (line 54) returns a CompletedProcess
    whose returncode the code never reads; the child's exit status is an
    explicit `Int` parameter of the model, and the record returned by the
    model exposes both the argument list handed to the child process and
    the LatchFile the task returns.
-/

namespace FamsaExports

/-- The `GuideTree` enum, src/wf/__init__.py lines 14-17. -/
inductive GuideTree where
  | sl
  | upgma
  | nj
deriving DecidableEq, Repr

/-- `.value` of each `GuideTree` member: the human-readable label string. -/
def GuideTree.value : GuideTree → String
  | .sl => "Single Linkage Tree"
  | .upgma => "UPGMA"
  | .nj => "Neighbor Joining Tree"

/-- The `gtOptions` dictionary (lines 34-38) as an association list in the
    source's insertion order, which is also the iteration order of
    `gtOptions.keys()` in the loop of lines 41-43. -/
def gtOptions : List (String × String) :=
  [("Single Linkage Tree", "sl"),
   ("UPGMA", "upgma"),
   ("Neighbor Joining Tree", "nj")]

/-- The translation loop of lines 40-43: starting from
    `gtValue = str(gtExport.value)`, iterate over the keys of `gtOptions`
    in order and replace the current value by `gtOptions[gt]` whenever the
    key equals the current value. -/
def translateGt (gtValue : String) : String :=
  gtOptions.foldl (fun acc kv => if kv.1 = acc then kv.2 else acc) gtValue

/-- The output filename computation `gtOutput += '.dnd'` of line 32. -/
def outputFilename (gtOutput : String) : String :=
  gtOutput ++ ".dnd"

/-- `gt_export_cmd` (lines 45-52) over the raw label string
    `str(gtExport.value)`.  Taking the raw string as a parameter also models
    the scenario where a non-enum value bypasses the `GuideTree` type. -/
def gt_export_cmd_of (input_path gtOutput gtValue : String) : List String :=
  ["./FAMSA/famsa",
   "-gt",
   translateGt gtValue,
   "-gt_export",
   input_path,
   outputFilename gtOutput]

/-- `gt_export_cmd` (lines 45-52) as built by `famsa_export_task` from the
    enum argument. -/
def gt_export_cmd (input_path gtOutput : String) (gtExport : GuideTree) :
    List String :=
  gt_export_cmd_of input_path gtOutput gtExport.value

/-- The `LatchFile` handle returned at line 56: a local path and a remote
    path. -/
structure LatchFile where
  localPath : String
  remotePath : String
deriving DecidableEq, Repr

/-- One run of the task: the argument list handed to `subprocess.run` and
    the `LatchFile` the task returns. -/
structure TaskRun where
  cmd : List String
  ret : LatchFile
deriving DecidableEq, Repr

/-- `famsa_export_task` (lines 24-56) over the raw label string, with the
    resolved input path and the child process's exit status as explicit
    parameters.  The source never branches on the exit status
    (`subprocess.run(gt_export_cmd)` at line 54 discards its result), so
    `childReturncode` appears nowhere in the body. -/
def famsa_export_task_raw (input_path gtOutput gtValue : String)
    (childReturncode : Int) : TaskRun :=
  { cmd := gt_export_cmd_of input_path gtOutput gtValue,
    ret := { localPath := outputFilename gtOutput,
             remotePath := "latch:///FAMSA-Exports/" ++ outputFilename gtOutput } }

/-- `famsa_export_task` (lines 24-56) as called with a `GuideTree` enum
    member: `gtValue = str(gtExport.value)` at line 40. -/
def famsa_export_task (input_path gtOutput : String) (gtExport : GuideTree)
    (childReturncode : Int) : TaskRun :=
  famsa_export_task_raw input_path gtOutput gtExport.value childReturncode

/-- Default for `gtOutput` (line 26 and line 89): `'custom_guide_tree'`. -/
def defaultGtOutput : String := "custom_guide_tree"

/-- Default for `gtExport` (line 27 and line 90): `GuideTree.sl`. -/
def defaultGtExport : GuideTree := GuideTree.sl

/-- The `famsa_export` workflow entry point (lines 86-169): it forwards its
    three arguments to `famsa_export_task` unchanged and returns its
    result; the `@workflow(metadata)` decorator only attaches UI metadata. -/
def famsa_export (input_path gtOutput : String) (gtExport : GuideTree)
    (childReturncode : Int) : TaskRun :=
  famsa_export_task input_path gtOutput gtExport childReturncode

end FamsaExports

namespace FamsaExports

/-- C1: each of the three `GuideTree` labels translates to exactly its
    external short code ('Single Linkage Tree' to 'sl', 'UPGMA' to 'upgma',
    'Neighbor Joining Tree' to 'nj'), and in the constructed command the
    element after the '-gt' flag (index 2, right after '-gt' at index 1) is
    that translated code. -/
theorem translation_table_correct (g : GuideTree) (ip go : String) :
    translateGt GuideTree.sl.value = "sl"
    ∧ translateGt GuideTree.upgma.value = "upgma"
    ∧ translateGt GuideTree.nj.value = "nj"
    ∧ (gt_export_cmd ip go g).get? 1 = some "-gt"
    ∧ (gt_export_cmd ip go g).get? 2 = some (translateGt g.value) := by
  refine ⟨by decide, by decide, by decide, rfl, rfl⟩

/-- C2: the command line handed to the child process is exactly the fixed
    six-element template: binary path, '-gt', translated code,
    '-gt_export', resolved input path, computed output filename, in that
    order and nothing else. -/
theorem command_template_exact (ip go : String) (g : GuideTree) (e : Int) :
    (famsa_export_task ip go g e).cmd
      = ["./FAMSA/famsa", "-gt", translateGt g.value, "-gt_export",
         ip, go ++ ".dnd"] := by
  rfl

/-- C3: the task performs no exit-code inspection: for any two exit
    statuses of the child process the whole run record (command and
    returned handle) is identical, and a handle is always returned. -/
theorem no_exit_code_inspection (ip go : String) (g : GuideTree)
    (e₁ e₂ : Int) :
    famsa_export_task ip go g e₁ = famsa_export_task ip go g e₂
    ∧ (famsa_export_task ip go g e₁).ret
        = { localPath := outputFilename go,
            remotePath := "latch:///FAMSA-Exports/" ++ outputFilename go } := by
  exact ⟨rfl, rfl⟩

/-- C4: the computed output filename is the base name with '.dnd' appended
    exactly once, and re-running the task with the same base name yields
    the same filename (no accumulating suffix): the local filename of the
    returned handle from any two runs with the same base name coincide. -/
theorem output_filename_idempotent (x ip ip' : String)
    (g g' : GuideTree) (e e' : Int) :
    outputFilename x = x ++ ".dnd"
    ∧ (famsa_export_task ip x g e).ret.localPath = x ++ ".dnd"
    ∧ (famsa_export_task ip x g e).ret.localPath
        = (famsa_export_task ip' x g' e').ret.localPath := by
  exact ⟨rfl, rfl, rfl⟩

/-- C5: the returned handle's remote path is the fixed prefix
    'latch:///FAMSA-Exports/' followed by the computed output filename, and
    its local path is exactly the computed output filename. -/
theorem handle_paths (ip go : String) (g : GuideTree) (e : Int) :
    (famsa_export_task ip go g e).ret.remotePath
      = "latch:///FAMSA-Exports/" ++ outputFilename go
    ∧ (famsa_export_task ip go g e).ret.localPath = outputFilename go := by
  exact ⟨rfl, rfl⟩

/-- C6: with only the input supplied (both defaults), the resolved
    algorithm code is 'sl' and the output filename is
    'custom_guide_tree.dnd'. -/
theorem default_invocation (ip : String) (e : Int) :
    translateGt defaultGtExport.value = "sl"
    ∧ (famsa_export_task ip defaultGtOutput defaultGtExport e).ret.localPath
        = "custom_guide_tree.dnd"
    ∧ (famsa_export_task ip defaultGtOutput defaultGtExport e).cmd.get? 2
        = some "sl" := by
  refine ⟨by decide, rfl, rfl⟩

/-- Helper: a label that matches no key of `gtOptions` passes through the
    translation loop unchanged. -/
theorem translateGt_unknown (s : String)
    (h : ∀ kv ∈ gtOptions, kv.1 ≠ s) : translateGt s = s := by
  have h1 : ¬("Single Linkage Tree" = s) :=
    h ("Single Linkage Tree", "sl") (by simp [gtOptions])
  have h2 : ¬("UPGMA" = s) :=
    h ("UPGMA", "upgma") (by simp [gtOptions])
  have h3 : ¬("Neighbor Joining Tree" = s) :=
    h ("Neighbor Joining Tree", "nj") (by simp [gtOptions])
  simp only [translateGt, gtOptions, List.foldl]
  rw [if_neg h1, if_neg h2, if_neg h3]

/-- C7: an algorithm label that is none of the three table keys is left
    unchanged by the lookup and is passed verbatim as the tree-type
    argument (the element after '-gt') to the external process. -/
theorem unknown_label_passthrough (s ip go : String) (e : Int)
    (h : ∀ kv ∈ gtOptions, kv.1 ≠ s) :
    translateGt s = s
    ∧ (famsa_export_task_raw ip go s e).cmd.get? 2 = some s := by
  have ht := translateGt_unknown s h
  refine ⟨ht, ?_⟩
  simp [famsa_export_task_raw, gt_export_cmd_of, ht]

/-- Witness for C7 at the concrete garbage label "garbage". -/
theorem unknown_label_passthrough_witness :
    translateGt "garbage" = "garbage"
    ∧ (famsa_export_task_raw "in.fasta" "out" "garbage" 0).cmd.get? 2
        = some "garbage" :=
  unknown_label_passthrough "garbage" "in.fasta" "out" 0 (by decide)

/-- C8: with algorithm UPGMA and base name 'tree1', the single child
    invocation has '-gt' followed by 'upgma' and its argument list ends in
    'tree1.dnd', and the returned handle's filename is 'tree1.dnd'. -/
theorem upgma_tree1_scenario (ip : String) (e : Int) :
    (famsa_export_task ip "tree1" GuideTree.upgma e).cmd.get? 1 = some "-gt"
    ∧ (famsa_export_task ip "tree1" GuideTree.upgma e).cmd.get? 2
        = some "upgma"
    ∧ (famsa_export_task ip "tree1" GuideTree.upgma e).cmd.getLast?
        = some "tree1.dnd"
    ∧ (famsa_export_task ip "tree1" GuideTree.upgma e).ret.localPath
        = "tree1.dnd" := by
  refine ⟨rfl, rfl, ?_, rfl⟩
  simp [famsa_export_task, famsa_export_task_raw, gt_export_cmd_of,
    outputFilename]

/-- C9: the workflow entry point returns exactly the result of the task on
    the same three arguments, unchanged. -/
theorem workflow_forwards_task (ip go : String) (g : GuideTree) (e : Int) :
    famsa_export ip go g e = famsa_export_task ip go g e := by
  rfl

/-- C10: the task's pure outputs are deterministic: two runs with the same
    resolved input path, base name, and algorithm yield the same command
    list and the same two handle paths, whatever the child process's
    outcome. -/
theorem task_deterministic (ip go : String) (g : GuideTree) (e₁ e₂ : Int) :
    (famsa_export_task ip go g e₁).cmd = (famsa_export_task ip go g e₂).cmd
    ∧ (famsa_export_task ip go g e₁).ret.localPath
        = (famsa_export_task ip go g e₂).ret.localPath
    ∧ (famsa_export_task ip go g e₁).ret.remotePath
        = (famsa_export_task ip go g e₂).ret.remotePath := by
  exact ⟨rfl, rfl, rfl⟩

end FamsaExports
